import Mathlib

/-!
Shallow embedding of `src/server/conn_context.cc` (DragonflyDB connection
context core): StoredCmd argument capture, connection-context forking,
the pub/sub subscription state machine, and the client-tracking predicate.

Bytes are modelled as `Nat`, caller memory as a total function `Nat → Nat`
(address to byte), and `string_view`s as offset/length pairs, so that
aliasing facts (same view = same addresses) are expressible.
-/

namespace Dfly

/-- Caller-owned memory: a byte at every address. -/
def Memory : Type := Nat → Nat

/-- A `std::string_view`: a pointer (address) plus a length. -/
structure SV where
  off : Nat
  len : Nat
deriving DecidableEq, Repr

/-- Read the bytes a view designates out of caller memory. -/
def SV.read (m : Memory) (v : SV) : List Nat :=
  (List.range v.len).map fun i => m (v.off + i)

/-- Read a view whose base is the owned packed buffer (a concrete byte list). -/
def bufRead (buffer : List Nat) (v : SV) : List Nat :=
  (buffer.drop v.off).take v.len

/-- Embeds `StoredCmd`'s argument storage: the `std::variant` over a borrowed
`CmdArgList` (views into caller memory) and `OwnStorage` (a packed byte
buffer plus the recorded per-argument sizes). -/
inductive ArgStorage where
  | slice (args : List SV)
  | own (buffer : List Nat) (sizes : List Nat)
deriving DecidableEq, Repr

/-- Embeds `StoredCmd` : the command id handle (opaque, modelled as a number),
the argument storage, and the reply mode (opaque, as a number). -/
structure StoredCmd where
  cid : Nat
  args_ : ArgStorage
  reply_mode_ : Nat
deriving DecidableEq, Repr

/-- Embeds `facade::ReplyMode::FULL` as an opaque code. -/
def replyModeFULL : Nat := 3

/-- The `StoredCmd(const CommandId*, bool own_args, ArgSlice args)`
constructor (conn_context.cc:36-54): when `own_args` is false the slice is
stored as-is; when true, a packed buffer of `sum of sizes` bytes is filled
by copying each argument's bytes contiguously and the per-argument sizes
are recorded. -/
def StoredCmd.make (cid : Nat) (own_args : Bool) (m : Memory) (args : List SV) :
    StoredCmd :=
  if own_args then
    { cid := cid
      args_ := .own ((args.map (SV.read m)).flatten) (args.map SV.len)
      reply_mode_ := replyModeFULL }
  else
    { cid := cid, args_ := .slice args, reply_mode_ := replyModeFULL }

/-- The view-reconstruction loop of `StoredCmd::ArgList`
(conn_context.cc:70-77): views into the packed buffer at offsets equal to
the cumulative sum of preceding sizes. -/
def ownViews : Nat → List Nat → List SV
  | _, [] => []
  | off, n :: rest => ⟨off, n⟩ :: ownViews (off + n) rest

/-- Embeds `StoredCmd::ArgList(CmdArgVec* scratch)` (conn_context.cc:68-81):
returns the argument views and the scratch vector's new contents. For
owned storage the scratch is resized and filled with views into the packed
buffer; for a borrowed slice the stored slice is returned directly and the
scratch is untouched. -/
def StoredCmd.ArgList (sc : StoredCmd) (scratch : List SV) : List SV × List SV :=
  match sc.args_ with
  | .own _ sizes => (ownViews 0 sizes, ownViews 0 sizes)
  | .slice args => (args, scratch)

/-- Modelled from the spec: the small-buffer (SSO) capacity of the packed
`std::string` buffer — the implementation-defined inline threshold; the
buffer's bytes live inside the object itself exactly when its length is at
most this capacity.  The container internals are not part of this
repository; `IsStoredInlined` (conn_context.cc:98-103) probes them via a
pointer-range comparison. -/
def ssoCapacity : Nat := 15

/-- Modelled from the spec: a heap-allocated string's `capacity()` is at
least its length; inline strings report the fixed inline capacity. -/
def stringCapacity (len : Nat) : Nat :=
  if len ≤ ssoCapacity then ssoCapacity else len

/-- Whether the packed buffer is stored inline (`IsStoredInlined(s.buffer)`). -/
def bufferInlined (len : Nat) : Bool := len ≤ ssoCapacity

/-- Modelled from the spec: the inline element capacity of the sizes array
(`absl::FixedArray<uint32_t>`), whose definition is not in this repository. -/
def sizesInlineCapacity : Nat := 64

/-- Whether the sizes array is stored inline (`IsStoredInlined(s.sizes)`). -/
def sizesInlined (count : Nat) : Bool := count ≤ sizesInlineCapacity

/-- Modelled from the spec: `memsize()` of a heap-allocated sizes array of
`count` 4-byte entries. -/
def sizesMemsize (count : Nat) : Nat := 4 * count

/-- Embeds `StoredCmd::UsedMemory()` (conn_context.cc:105-114): for owned storage,
the buffer's allocated capacity (zero if stored inline) plus the sizes
array's allocated size (zero if stored inline); for a borrowed slice, zero. -/
def StoredCmd.UsedMemory (sc : StoredCmd) : Nat :=
  match sc.args_ with
  | .own buffer sizes =>
      (if bufferInlined buffer.length then 0 else stringCapacity buffer.length) +
      (if sizesInlined sizes.length then 0 else sizesMemsize sizes.length)
  | .slice _ => 0

/-- Embeds `StoredCmd::NumArgs` : number of stored arguments. -/
def StoredCmd.NumArgs (sc : StoredCmd) : Nat :=
  match sc.args_ with
  | .own _ sizes => sizes.length
  | .slice args => args.length

/- ### Subscription state -/

/-- Embeds `ConnectionState::SubscribeInfo`: subscribed exact channels and
subscribed patterns.  The sets (`absl::flat_hash_set<std::string>`) are
modelled as duplicate-free lists in insertion order. -/
structure SubscribeInfo where
  channels : List String
  patterns : List String
deriving DecidableEq, Repr

/-- Modelled from the spec: `SubscribeInfo::IsEmpty()` — both sets empty
(declared in the header, which is not under src/). -/
def SubscribeInfo.IsEmpty (s : SubscribeInfo) : Bool :=
  s.channels.isEmpty && s.patterns.isEmpty

/-- Modelled from the spec: `SubscribeInfo::SubscriptionCount()` — the
current subscription count, exact channels plus patterns (declared in the
header, which is not under src/). -/
def SubscribeInfo.SubscriptionCount (s : SubscribeInfo) : Nat :=
  s.channels.length + s.patterns.length

/-- Embeds `flat_hash_set::emplace`: returns the updated set and whether the
element was novel (the `.second` of the insertion result). -/
def setEmplace (l : List String) (ch : String) : List String × Bool :=
  if ch ∈ l then (l, false) else (l ++ [ch], true)

/-- Embeds `flat_hash_set::erase`: returns the updated set and whether an element
was actually removed (the erased count being positive). -/
def setErase (l : List String) (ch : String) : List String × Bool :=
  (l.filter (· ≠ ch), decide (ch ∈ l))

/-- Observable interactions of `ChangeSubscriptions` with the
`ChannelStoreUpdater` and the Subscribe Info record, in program order:
`record ch` is `csu.Record(channel)`, `apply recs` is `csu.Apply()` with
the batch recorded so far, `resetInfo` is `conn_state.subscribe_info.reset()`. -/
inductive SubEvent where
  | record (channel : String)
  | apply (records : List String)
  | resetInfo
deriving DecidableEq, Repr

/-- The per-channel loop of `ChangeSubscriptions` (conn_context.cc:283-292)
acting on the selected local store: returns the final SubscribeInfo, the
channels recorded with the updater (in order), and the per-element
`SubscriptionCount()` values. -/
def subLoop (pattern to_add : Bool) :
    SubscribeInfo → List String → SubscribeInfo × List String × List Nat
  | sinfo, [] => (sinfo, [], [])
  | sinfo, ch :: rest =>
    let store := if pattern then sinfo.patterns else sinfo.channels
    let step := if to_add then setEmplace store ch else setErase store ch
    let sinfo' := if pattern then { sinfo with patterns := step.1 }
                  else { sinfo with channels := step.1 }
    let tail := subLoop pattern to_add sinfo' rest
    (tail.1, (if step.2 then [ch] else []) ++ tail.2.1,
      sinfo'.SubscriptionCount :: tail.2.2)

/-- A `facade::Connection` handle, reduced to the two predicates the
translated code consults. -/
structure ConnHandle where
  privileged : Bool
  mainOrMemcache : Bool
deriving DecidableEq, Repr

/-- The `ConnectionState` fields this core touches: the selected database
index, the squashing back-reference marker, and the Subscribe Info record
(`std::unique_ptr`, so `Option`). -/
structure ConnectionState where
  db_index : Nat
  squashing_info : Bool
  subscribe_info : Option SubscribeInfo
deriving DecidableEq, Repr

/-- Embeds `dfly::ConnectionContext`: the connection handle (absent for squashed
children), the ACL credential snapshot, session flags, namespace handle
(opaque, a number), connection state, the optional carrier transaction
handle (opaque, a number) and the live subscription count. -/
structure ConnectionContext where
  conn : Option ConnHandle
  acl_commands : List Nat
  keys : List String
  pub_sub : List String
  skip_acl_validation : Bool
  acl_db_idx : Nat
  ns : Nat
  has_main_or_memcache_listener : Bool
  conn_state : ConnectionState
  transaction : Option Nat
  subscriptions : Nat
deriving DecidableEq, Repr

/-- Embeds `acl::NumberOfFamilies()` — an opaque external constant. -/
def aclNumberOfFamilies : Nat := 8

/-- Embeds `acl::NONE_COMMANDS` — the maximally restrictive per-family bitmap. -/
def aclNoneCommands : Nat := 0

/-- Field defaults of a freshly value-initialized context (before the
constructor body runs). -/
def blankContext : ConnectionContext :=
  { conn := none, acl_commands := [], keys := [], pub_sub := []
    skip_acl_validation := false, acl_db_idx := 0, ns := 0
    has_main_or_memcache_listener := false
    conn_state := { db_index := 0, squashing_info := false, subscribe_info := none }
    transaction := none, subscriptions := 0 }

/-- The squashing-fork constructor
`ConnectionContext(const ConnectionContext* owner, Transaction* tx)`
(conn_context.cc:137-157): base-initializes with a null connection, records
the transaction, copies the owner's ACL bitmap, key patterns, pub/sub
patterns, skip-validation flag, default db index and namespace by value
(or installs the maximally restrictive bitmap when there is no owner),
copies the listener flag from the owner's live connection when present,
and, when a transaction is supplied, copies the owner's selected db index
and records the squashing back-reference.  `none` models the
`DCHECK(owner)` violation (transaction without owner dereferences the null
owner). -/
def forkContext (owner : Option ConnectionContext) (tx : Option Nat) :
    Option ConnectionContext :=
  let base := { blankContext with transaction := tx }
  let c1 := match owner with
    | some o =>
      { base with
        acl_commands := o.acl_commands
        keys := o.keys
        pub_sub := o.pub_sub
        skip_acl_validation := o.skip_acl_validation
        acl_db_idx := o.acl_db_idx
        ns := o.ns
        has_main_or_memcache_listener :=
          match o.conn with
          | some h => h.mainOrMemcache
          | none => base.has_main_or_memcache_listener }
    | none =>
      { base with
        acl_commands := List.replicate aclNumberOfFamilies aclNoneCommands }
  match tx with
  | none => some c1
  | some _ =>
    match owner with
    | none => none
    | some o =>
      some { c1 with conn_state :=
        { c1.conn_state with db_index := o.conn_state.db_index
                             squashing_info := true } }

/-- Outcome of `ChangeSubscriptions`: the updated context, the returned
per-channel result counts, and the observable updater/record events in
program order. -/
structure ChangeOutcome where
  ctx : ConnectionContext
  result : List Nat
  events : List SubEvent
deriving DecidableEq, Repr

/-- Embeds `ConnectionContext::ChangeSubscriptions(CmdArgList, bool pattern,
bool to_add, bool to_reply)` (conn_context.cc:260-305). -/
def ConnectionContext.ChangeSubscriptions (c : ConnectionContext)
    (channels : List String) (pattern to_add to_reply : Bool) : ChangeOutcome :=
  let result0 : List Nat := List.replicate (if to_reply then channels.length else 0) 0
  if !to_add && c.conn_state.subscribe_info.isNone then
    ⟨c, result0, []⟩
  else
    let c1 := if c.conn_state.subscribe_info.isNone then
        { c with subscriptions := c.subscriptions + 1 } else c
    let sinfo0 := (c.conn_state.subscribe_info).getD ⟨[], []⟩
    let lp := subLoop pattern to_add sinfo0 channels
    let sfin := lp.1
    let recs := lp.2.1
    let result := if to_reply then lp.2.2 else []
    let events := recs.map SubEvent.record ++ [SubEvent.apply recs]
    if !to_add && sfin.IsEmpty then
      ⟨{ c1 with conn_state := { c1.conn_state with subscribe_info := none }
                 subscriptions := c1.subscriptions - 1 },
       result, events ++ [SubEvent.resetInfo]⟩
    else
      ⟨{ c1 with conn_state := { c1.conn_state with subscribe_info := some sfin } },
       result, events⟩

/-- Embeds `ConnectionContext::Unsubscribe(string_view channel)`
(conn_context.cc:248-258); `none` models the `DCHECK(sinfo)` violation
(the null Subscribe Info pointer is dereferenced). -/
def ConnectionContext.Unsubscribe (c : ConnectionContext) (channel : String) :
    Option ConnectionContext :=
  match c.conn_state.subscribe_info with
  | none => none
  | some sinfo =>
    let sinfo' := { sinfo with channels := (setErase sinfo.channels channel).1 }
    if sinfo'.IsEmpty then
      some { c with conn_state := { c.conn_state with subscribe_info := none }
                    subscriptions := c.subscriptions - 1 }
    else
      some { c with conn_state := { c.conn_state with subscribe_info := some sinfo' } }

/-- One push-style reply frame as produced by
`SendSubscriptionChangedResponse` (conn_context.cc:25-34):
`[action, topic-or-null, count]`; `inScope` records whether the frame was
emitted inside a `SinkReplyBuilder::ReplyScope` region. -/
structure PushFrame where
  action : String
  topic : Option String
  count : Nat
  inScope : Bool
deriving DecidableEq, Repr

/-- The `action[2]` tables of the subscription reply loops. -/
def actionName (pattern to_add : Bool) : String :=
  if pattern then (if to_add then "psubscribe" else "punsubscribe")
  else (if to_add then "subscribe" else "unsubscribe")

/-- Embeds `ConnectionContext::ChangeSubscription` (conn_context.cc:177-188):
runs the change protocol on exact channels and, when a reply is requested,
emits one frame per result entry inside a reply scope. -/
def ConnectionContext.ChangeSubscription (c : ConnectionContext)
    (to_add to_reply : Bool) (args : List String) :
    ConnectionContext × List PushFrame :=
  let r := c.ChangeSubscriptions args false to_add to_reply
  let frames := if to_reply then
      (args.zip r.result).map fun p =>
        ⟨actionName false to_add, some p.1, p.2, true⟩
    else []
  (r.ctx, frames)

/-- Embeds `ConnectionContext::ChangePSubscription` (conn_context.cc:190-205):
runs the change protocol on patterns; when a reply is requested and the
result vector is empty, emits the single null-topic zero-count frame
outside any reply scope, otherwise one frame per result entry inside a
reply scope. -/
def ConnectionContext.ChangePSubscription (c : ConnectionContext)
    (to_add to_reply : Bool) (args : List String) :
    ConnectionContext × List PushFrame :=
  let r := c.ChangeSubscriptions args true to_add to_reply
  let frames := if to_reply then
      if r.result.length = 0 then
        [⟨actionName true to_add, none, 0, false⟩]
      else
        (args.zip r.result).map fun p =>
          ⟨actionName true to_add, some p.1, p.2, true⟩
    else []
  (r.ctx, frames)

/-- Embeds `ConnectionContext::UnsubscribeAll` (conn_context.cc:207-215): with a
reply requested and no subscribed exact channels, emits the single
null-topic zero-count frame; otherwise materializes the current channel
set and delegates to `ChangeSubscription` with `to_add = false`.  `none`
models the null `subscribe_info` dereference on line 211 (reached when no
reply is requested and no Subscribe Info exists). -/
def ConnectionContext.UnsubscribeAll (c : ConnectionContext) (to_reply : Bool) :
    Option (ConnectionContext × List PushFrame) :=
  if to_reply && (match c.conn_state.subscribe_info with
                  | none => true
                  | some s => s.channels.isEmpty) then
    some (c, [⟨"unsubscribe", none, 0, false⟩])
  else
    match c.conn_state.subscribe_info with
    | none => none
    | some s => some (c.ChangeSubscription false to_reply s.channels)

/-- Embeds `ConnectionContext::PUnsubscribeAll` (conn_context.cc:217-226): the
pattern analogue of `UnsubscribeAll`, delegating to `ChangePSubscription`.
`none` models the null `subscribe_info` dereference on line 222. -/
def ConnectionContext.PUnsubscribeAll (c : ConnectionContext) (to_reply : Bool) :
    Option (ConnectionContext × List PushFrame) :=
  if to_reply && (match c.conn_state.subscribe_info with
                  | none => true
                  | some s => s.patterns.isEmpty) then
    some (c, [⟨"punsubscribe", none, 0, false⟩])
  else
    match c.conn_state.subscribe_info with
    | none => none
    | some s => some (c.ChangePSubscription false to_reply s.patterns)

/- ### Client tracking -/

/-- The client-side-caching tracking mode. -/
inductive TrackingOption where
  | NONE
  | OPTIN
  | OPTOUT
deriving DecidableEq, Repr

/-- Embeds `ConnectionState::ClientTracking`: the tracking flag, the no-loop
flag, the mode, and the two sequence counters. -/
structure ClientTracking where
  tracking_ : Bool
  noloop_ : Bool
  option_ : TrackingOption
  seq_num_ : Nat
  caching_seq_num_ : Nat
deriving DecidableEq, Repr

/-- Modelled from the spec: `ClientTracking::IsTrackingOn()` (declared in
the header, which is not under src/) reports whether tracking is on. -/
def ClientTracking.IsTrackingOn (ct : ClientTracking) : Bool := ct.tracking_

/-- Embeds `ConnectionState::ClientTracking::ShouldTrackKeys()`
(conn_context.cc:321-338). -/
def ClientTracking.ShouldTrackKeys (ct : ClientTracking) : Bool :=
  if !ct.IsTrackingOn then false
  else if ct.noloop_ then false
  else if ct.option_ = .NONE then true
  else
    let m := ct.seq_num_ == 1 + ct.caching_seq_num_
    if ct.option_ = .OPTIN then m else !m

/-- Overwrite a context's ACL command bitmap (a post-construction
mutation of `acl_commands`). -/
def setAclCommands (c : ConnectionContext) (b : List Nat) : ConnectionContext :=
  { c with acl_commands := b }

/-- A parent context and a squashed child context living side by side, for
stating mutation-independence. -/
structure CtxPair where
  parent : ConnectionContext
  child : ConnectionContext
deriving DecidableEq, Repr

/-- Mutate the child's ACL bitmap in place. -/
def CtxPair.mutateChildAcl (w : CtxPair) (b : List Nat) : CtxPair :=
  { w with child := setAclCommands w.child b }

/-- Mutate the parent's ACL bitmap in place. -/
def CtxPair.mutateParentAcl (w : CtxPair) (b : List Nat) : CtxPair :=
  { w with parent := setAclCommands w.parent b }

/-- The Subscribe Info presence invariant: the record exists exactly while
it is non-empty (absent, or present and non-empty). -/
def subInfoInv (c : ConnectionContext) : Bool :=
  match c.conn_state.subscribe_info with
  | none => true
  | some s => !s.IsEmpty

/-- A context subscribed to exactly one channel `"a"`. -/
def demoCtx : ConnectionContext :=
  { blankContext with
    conn_state := { blankContext.conn_state with
                    subscribe_info := some ⟨["a"], []⟩ }
    subscriptions := 1 }

/- ### Helper lemmas -/

lemma sv_read_length (m : Memory) (v : SV) : (SV.read m v).length = v.len := by
  simp [SV.read]

lemma flatten_read_length (m : Memory) (args : List SV) :
    ((args.map (SV.read m)).flatten).length = (args.map SV.len).sum := by
  rw [List.length_flatten, List.map_map]
  congr 1
  exact List.map_congr_left fun v _ => sv_read_length m v

lemma ownViews_map_bufRead (ls : List (List Nat)) (pre : List Nat) :
    (ownViews pre.length (ls.map List.length)).map (bufRead (pre ++ ls.flatten)) = ls := by
  induction ls generalizing pre with
  | nil => simp [ownViews]
  | cons l rest ih =>
    have hflat : (l :: rest).flatten = l ++ rest.flatten := rfl
    rw [hflat, List.map_cons, ownViews, List.map_cons]
    have hassoc : pre ++ (l ++ rest.flatten) = (pre ++ l) ++ rest.flatten := by
      rw [List.append_assoc]
    have h1 : bufRead (pre ++ (l ++ rest.flatten)) ⟨pre.length, l.length⟩ = l := by
      rw [bufRead]
      have hdrop : (pre ++ (l ++ rest.flatten)).drop pre.length = l ++ rest.flatten :=
        List.drop_left pre (l ++ rest.flatten)
      rw [hdrop, List.take_left]
    have hlen : pre.length + l.length = (pre ++ l).length := by
      rw [List.length_append]
    have h2 : (ownViews (pre.length + l.length) (rest.map List.length)).map
        (bufRead (pre ++ (l ++ rest.flatten))) = rest := by
      rw [hlen, hassoc]
      exact ih (pre ++ l)
    rw [h1, h2]

lemma ownViews_bounded (sizes : List Nat) (off : Nat) :
    ∀ v ∈ ownViews off sizes, v.off + v.len ≤ off + sizes.sum := by
  induction sizes generalizing off with
  | nil => simp [ownViews]
  | cons n rest ih =>
    intro v hv
    rw [ownViews] at hv
    simp only [List.mem_cons] at hv
    rcases hv with hv | hv
    · subst hv
      simp only [List.sum_cons]
      omega
    · have := ih (off + n) v hv
      simp only [List.sum_cons]
      omega

lemma cs_noinfo_remove (c : ConnectionContext) (channels : List String)
    (pattern to_reply : Bool) (h : c.conn_state.subscribe_info = none) :
    c.ChangeSubscriptions channels pattern false to_reply =
      ⟨c, if to_reply then List.replicate channels.length 0 else [], []⟩ := by
  rw [ConnectionContext.ChangeSubscriptions]
  simp only [h, Option.isNone_none, Bool.not_false, Bool.true_and, if_true]
  cases to_reply <;> simp

lemma cs_some_eq (c : ConnectionContext) (channels : List String)
    (pattern to_add to_reply : Bool) (s : SubscribeInfo)
    (h : c.conn_state.subscribe_info = some s) :
    c.ChangeSubscriptions channels pattern to_add to_reply =
      (if !to_add && (subLoop pattern to_add s channels).1.IsEmpty then
        ⟨{ c with conn_state := { c.conn_state with subscribe_info := none }
                  subscriptions := c.subscriptions - 1 },
         (if to_reply then (subLoop pattern to_add s channels).2.2 else []),
         ((subLoop pattern to_add s channels).2.1.map SubEvent.record
           ++ [SubEvent.apply (subLoop pattern to_add s channels).2.1])
           ++ [SubEvent.resetInfo]⟩
      else
        ⟨{ c with conn_state := { c.conn_state with
             subscribe_info := some (subLoop pattern to_add s channels).1 } },
         (if to_reply then (subLoop pattern to_add s channels).2.2 else []),
         (subLoop pattern to_add s channels).2.1.map SubEvent.record
           ++ [SubEvent.apply (subLoop pattern to_add s channels).2.1]⟩) := by
  rw [ConnectionContext.ChangeSubscriptions]
  simp only [h, Option.isNone_some, Bool.and_false, Bool.false_eq_true, if_false,
    Option.getD_some, ite_false]

lemma cs_none_add_eq (c : ConnectionContext) (channels : List String)
    (pattern to_reply : Bool) (h : c.conn_state.subscribe_info = none) :
    c.ChangeSubscriptions channels pattern true to_reply =
      ⟨{ c with
           conn_state := { c.conn_state with
             subscribe_info := some (subLoop pattern true ⟨[], []⟩ channels).1 },
           subscriptions := c.subscriptions + 1 },
       (if to_reply then (subLoop pattern true ⟨[], []⟩ channels).2.2 else []),
       (subLoop pattern true ⟨[], []⟩ channels).2.1.map SubEvent.record
         ++ [SubEvent.apply (subLoop pattern true ⟨[], []⟩ channels).2.1]⟩ := by
  rw [ConnectionContext.ChangeSubscriptions]
  simp only [h, Option.isNone_none, Bool.not_true, Bool.false_and, Bool.false_eq_true,
    if_false, if_true, Option.getD_none]

lemma setEmplace_len (l : List String) (ch : String) :
    l.length ≤ (setEmplace l ch).1.length := by
  rw [setEmplace]
  split <;> simp

lemma setEmplace_pos (l : List String) (ch : String) :
    0 < (setEmplace l ch).1.length := by
  rw [setEmplace]
  split
  · rename_i hm
    exact List.length_pos.mpr (List.ne_nil_of_mem hm)
  · simp

lemma subLoop_add_mono (pattern : Bool) (channels : List String) :
    ∀ sinfo : SubscribeInfo,
      sinfo.channels.length ≤ (subLoop pattern true sinfo channels).1.channels.length
      ∧ sinfo.patterns.length ≤ (subLoop pattern true sinfo channels).1.patterns.length := by
  induction channels with
  | nil => intro sinfo; rw [subLoop]; exact ⟨le_refl _, le_refl _⟩
  | cons ch rest ih =>
    intro sinfo
    rw [subLoop]
    cases pattern
    · simp only [Bool.false_eq_true, if_false, if_true]
      exact ⟨le_trans (setEmplace_len _ _)
        (ih { sinfo with channels := (setEmplace sinfo.channels ch).1 }).1,
        (ih { sinfo with channels := (setEmplace sinfo.channels ch).1 }).2⟩
    · simp only [if_true]
      exact ⟨(ih { sinfo with patterns := (setEmplace sinfo.patterns ch).1 }).1,
        le_trans (setEmplace_len _ _)
          (ih { sinfo with patterns := (setEmplace sinfo.patterns ch).1 }).2⟩

lemma isEmpty_false_of_channels (s : SubscribeInfo) (h : 0 < s.channels.length) :
    s.IsEmpty = false := by
  have hc : s.channels ≠ [] := by
    intro he
    rw [he] at h
    exact absurd h (by simp)
  simp [SubscribeInfo.IsEmpty, hc]

lemma isEmpty_false_of_patterns (s : SubscribeInfo) (h : 0 < s.patterns.length) :
    s.IsEmpty = false := by
  have hp : s.patterns ≠ [] := by
    intro he
    rw [he] at h
    exact absurd h (by simp)
  simp [SubscribeInfo.IsEmpty, hp]

lemma subLoop_add_nonempty (pattern : Bool) (sinfo : SubscribeInfo) (ch : String)
    (rest : List String) :
    (subLoop pattern true sinfo (ch :: rest)).1.IsEmpty = false := by
  rw [subLoop]
  cases pattern
  · simp only [Bool.false_eq_true, if_false, if_true]
    apply isEmpty_false_of_channels
    calc 0 < (setEmplace sinfo.channels ch).1.length := setEmplace_pos _ _
      _ ≤ _ := (subLoop_add_mono false rest
            { sinfo with channels := (setEmplace sinfo.channels ch).1 }).1
  · simp only [if_true]
    apply isEmpty_false_of_patterns
    calc 0 < (setEmplace sinfo.patterns ch).1.length := setEmplace_pos _ _
      _ ≤ _ := (subLoop_add_mono true rest
            { sinfo with patterns := (setEmplace sinfo.patterns ch).1 }).2

/- ### Claim theorems -/

/-- C3: capturing any sequence of byte strings with the owning constructor
and materializing the view (`ArgList`) reproduces exactly the original
byte strings, in order; in the owned representation the recorded sizes sum
to the packed buffer's length and every reconstructed view lies within the
buffer. -/
theorem storedCmd_own_roundtrip (cid : Nat) (m : Memory) (args scratch : List SV) :
    ∃ B S, (StoredCmd.make cid true m args).args_ = ArgStorage.own B S ∧
      (((StoredCmd.make cid true m args).ArgList scratch).1.map (bufRead B)
        = args.map (SV.read m)) ∧
      S.sum = B.length ∧
      (((StoredCmd.make cid true m args).ArgList scratch).1.all
        fun v => decide (v.off + v.len ≤ B.length)) = true := by
  refine ⟨(args.map (SV.read m)).flatten, args.map SV.len, rfl, ?_, ?_, ?_⟩
  · show (ownViews 0 (args.map SV.len)).map
        (bufRead ((args.map (SV.read m)).flatten)) = args.map (SV.read m)
    have hsz : args.map SV.len = (args.map (SV.read m)).map List.length := by
      rw [List.map_map]
      exact (List.map_congr_left fun v _ => (sv_read_length m v).symm)
    have h0 : (0 : Nat) = ([] : List Nat).length := rfl
    rw [hsz, h0]
    have := ownViews_map_bufRead (args.map (SV.read m)) []
    simpa using this
  · exact (flatten_read_length m args).symm
  · rw [List.all_eq_true]
    intro v hv
    have hb := ownViews_bounded (args.map SV.len) 0 v hv
    rw [decide_eq_true_eq, flatten_read_length m args]
    omega

/-- C7: a `StoredCmd` built in borrowed mode returns, from `ArgList`, the
caller-supplied slice itself — the identical views (same addresses, same
lengths) into the caller's memory — and leaves the scratch buffer
untouched (no bytes are copied). -/
theorem storedCmd_borrowed_alias (cid : Nat) (m : Memory) (args scratch : List SV) :
    (StoredCmd.make cid false m args).ArgList scratch = (args, scratch) := rfl

/-- C5: `ShouldTrackKeys()` is a pure predicate: false whenever tracking
is off or the no-loop flag is set; true for plain-on (NONE) mode; for
OPTIN true iff `seq_num = caching_seq_num + 1`; for OPTOUT true iff
`seq_num ≠ caching_seq_num + 1`. -/
theorem shouldTrackKeys_table (ct : ClientTracking) :
    ct.ShouldTrackKeys =
      (ct.tracking_ && !ct.noloop_ &&
        (match ct.option_ with
         | .NONE => true
         | .OPTIN => ct.seq_num_ == ct.caching_seq_num_ + 1
         | .OPTOUT => !(ct.seq_num_ == ct.caching_seq_num_ + 1))) := by
  rcases ct with ⟨t, n, o, s, cs⟩
  cases t <;> cases n <;> cases o <;>
    simp [ClientTracking.ShouldTrackKeys, ClientTracking.IsTrackingOn, Nat.add_comm]

lemma usedMemory_make_own (cid : Nat) (m : Memory) (args : List SV) :
    (StoredCmd.make cid true m args).UsedMemory =
      (if bufferInlined (args.map SV.len).sum then 0
       else stringCapacity (args.map SV.len).sum) +
      (if sizesInlined args.length then 0 else sizesMemsize args.length) := by
  simp [StoredCmd.make, StoredCmd.UsedMemory, flatten_read_length m args, List.length_map]

/-- C6: `UsedMemory()` is zero for every borrowed-slice `StoredCmd`; for
owned storage it is the buffer's allocated capacity plus the sizes array's
allocated size with each component zero when stored inline, hence zero
when the total bytes and the argument count both fit their inline
thresholds, and strictly positive once total argument bytes exceed the
buffer's inline threshold. -/
theorem usedMemory_spec :
    (∀ cid (m : Memory) (args : List SV),
      (StoredCmd.make cid false m args).UsedMemory = 0)
    ∧ (∀ cid (m : Memory) (args : List SV),
      (StoredCmd.make cid true m args).UsedMemory =
        (if bufferInlined (args.map SV.len).sum then 0
         else stringCapacity (args.map SV.len).sum) +
        (if sizesInlined args.length then 0 else sizesMemsize args.length))
    ∧ (∀ cid (m : Memory) (args : List SV),
      ((args.map SV.len).sum ≤ ssoCapacity → args.length ≤ sizesInlineCapacity →
        (StoredCmd.make cid true m args).UsedMemory = 0)
      ∧ (ssoCapacity < (args.map SV.len).sum →
        0 < (StoredCmd.make cid true m args).UsedMemory)) := by
  refine ⟨fun cid m args => rfl, fun cid m args => usedMemory_make_own cid m args,
    fun cid m args => ⟨fun h1 h2 => ?_, fun h => ?_⟩⟩
  · rw [usedMemory_make_own]
    simp [bufferInlined, sizesInlined, h1, h2]
  · rw [usedMemory_make_own]
    have hb : bufferInlined (args.map SV.len).sum = false := by
      simp [bufferInlined]
      omega
    rw [hb]
    simp only [Bool.false_eq_true, if_false]
    have : 0 < stringCapacity (args.map SV.len).sum := by
      simp only [ssoCapacity] at h
      simp only [stringCapacity, ssoCapacity]
      split <;> omega
    omega

/-- Witness for C6 at concrete inputs: two small arguments fit inline and
account for zero heap bytes; a single 16-byte argument exceeds the inline
threshold and accounts for a positive amount. -/
theorem usedMemory_spec_witness :
    ((([⟨0, 3⟩, ⟨9, 2⟩] : List SV).map SV.len).sum ≤ ssoCapacity
      ∧ ([⟨0, 3⟩, ⟨9, 2⟩] : List SV).length ≤ sizesInlineCapacity
      ∧ (StoredCmd.make 1 true (fun _ => 0) [⟨0, 3⟩, ⟨9, 2⟩]).UsedMemory = 0)
    ∧ (ssoCapacity < (([⟨0, 16⟩] : List SV).map SV.len).sum
      ∧ 0 < (StoredCmd.make 1 true (fun _ => 0) [⟨0, 16⟩]).UsedMemory) :=
  ⟨⟨by decide, by decide,
    (usedMemory_spec.2.2 1 (fun _ => 0) [⟨0, 3⟩, ⟨9, 2⟩]).1 (by decide) (by decide)⟩,
   ⟨by decide, (usedMemory_spec.2.2 1 (fun _ => 0) [⟨0, 16⟩]).2 (by decide)⟩⟩

/-- C8: the squashing-fork constructor succeeds given a parent, gives the
child by-value copies of the parent's ACL bitmap, key patterns, pub/sub
patterns, skip-validation flag, default database index and namespace, a
null connection handle of its own, and mutating either context's ACL
bitmap afterwards leaves the other context untouched. -/
theorem forkContext_isolation (parent : ConnectionContext) (tx : Option Nat)
    (b : List Nat) :
    ∃ child, forkContext (some parent) tx = some child ∧
      child.conn = none ∧
      child.acl_commands = parent.acl_commands ∧
      child.keys = parent.keys ∧
      child.pub_sub = parent.pub_sub ∧
      child.skip_acl_validation = parent.skip_acl_validation ∧
      child.acl_db_idx = parent.acl_db_idx ∧
      child.ns = parent.ns ∧
      (CtxPair.mutateChildAcl ⟨parent, child⟩ b).parent = parent ∧
      (CtxPair.mutateChildAcl ⟨parent, child⟩ b).child.acl_commands = b ∧
      (CtxPair.mutateParentAcl ⟨parent, child⟩ b).child = child ∧
      (CtxPair.mutateParentAcl ⟨parent, child⟩ b).parent.acl_commands = b := by
  cases tx with
  | none => exact ⟨_, rfl, rfl, rfl, rfl, rfl, rfl, rfl, rfl, rfl, rfl, rfl, rfl⟩
  | some t => exact ⟨_, rfl, rfl, rfl, rfl, rfl, rfl, rfl, rfl, rfl, rfl, rfl, rfl⟩

/-- C9: `ChangeSubscriptions` with `to_add = false` on a connection
without Subscribe Info is a no-op: the context is returned unchanged, no
events are recorded, and the result is a zero-filled vector with one entry
per channel when a reply is requested and empty otherwise. -/
theorem changeSubscriptions_remove_noinfo (c : ConnectionContext)
    (channels : List String) (pattern to_reply : Bool)
    (h : c.conn_state.subscribe_info = none) :
    c.ChangeSubscriptions channels pattern false to_reply =
      ⟨c, if to_reply then List.replicate channels.length 0 else [], []⟩ :=
  cs_noinfo_remove c channels pattern to_reply h

/-- Witness for C9: removing two channels on the blank context. -/
theorem changeSubscriptions_remove_noinfo_witness :
    blankContext.conn_state.subscribe_info = none ∧
    blankContext.ChangeSubscriptions ["x", "y"] false false true =
      ⟨blankContext, [0, 0], []⟩ :=
  ⟨rfl, by
    simpa using changeSubscriptions_remove_noinfo blankContext ["x", "y"] false true rfl⟩

lemma changeSubscriptions_empty_result (c : ConnectionContext)
    (pattern to_add : Bool) :
    (c.ChangeSubscriptions [] pattern to_add true).result = [] := by
  rw [ConnectionContext.ChangeSubscriptions]
  split
  · simp
  · simp only [subLoop]
    split <;> simp

/-- C10: with a reply requested and an empty argument list,
`ChangePSubscription` emits exactly one `[action, null, 0]` push frame,
outside any reply-scope region, while `ChangeSubscription` emits no
frames at all. -/
theorem psubscription_null_fallback (c : ConnectionContext) (to_add : Bool) :
    (c.ChangePSubscription to_add true []).2
        = [⟨actionName true to_add, none, 0, false⟩]
    ∧ (c.ChangeSubscription to_add true []).2 = [] := by
  constructor
  · simp [ConnectionContext.ChangePSubscription, changeSubscriptions_empty_result]
  · simp [ConnectionContext.ChangeSubscription]

/-- C1 counterexample: subscribing to `{"a","b"}` and then `{"b","c"}`
with a reply requested reports the running post-element totals `[2, 3]`
during the second call — not `3` for every element as the claim states. -/
theorem subscribe_counts_counterexample :
    ((blankContext.ChangeSubscriptions ["a", "b"] false true true).ctx.ChangeSubscriptions
        ["b", "c"] false true true).result = [2, 3]
    ∧ ((blankContext.ChangeSubscriptions ["a", "b"] false true true).ctx.ChangeSubscriptions
        ["b", "c"] false true true).result ≠ [3, 3] := by
  constructor
  · rfl
  · decide

/-- C1 amended: subscribing to `{"a","b"}` then `{"b","c"}` (duplicates
ignored, the already-present `"b"` is not re-recorded with the updater)
leaves the final exact-channel set `{"a","b","c"}`; the counts reported
during the second call are the running post-element subscription totals
`[2, 3]`, whose last entry equals the post-operation total `3`. -/
theorem subscribe_counts_amended :
    ((blankContext.ChangeSubscriptions ["a", "b"] false true true).ctx.ChangeSubscriptions
        ["b", "c"] false true true).ctx.conn_state.subscribe_info
      = some ⟨["a", "b", "c"], []⟩
    ∧ ((blankContext.ChangeSubscriptions ["a", "b"] false true true).ctx.ChangeSubscriptions
        ["b", "c"] false true true).events
      = [SubEvent.record "c", SubEvent.apply ["c"]]
    ∧ ((blankContext.ChangeSubscriptions ["a", "b"] false true true).ctx.ChangeSubscriptions
        ["b", "c"] false true true).result = [2, 3]
    ∧ ((blankContext.ChangeSubscriptions ["a", "b"] false true true).ctx.ChangeSubscriptions
        ["b", "c"] false true true).result.getLast? = some 3 := by
  refine ⟨rfl, ?_, rfl, rfl⟩
  decide

/-- C2 counterexample: with no reply requested and no Subscribe Info,
`UnsubscribeAll` (and `PUnsubscribeAll`) dereferences the absent record
(conn_context.cc:211/222) — the call is not well-defined for every value
of the reply flag. -/
theorem unsubscribeAll_noreply_crash :
    (blankContext.UnsubscribeAll false).isSome = false
    ∧ (blankContext.PUnsubscribeAll false).isSome = false := by
  constructor <;> rfl

/-- C2 amended: with a reply requested, `UnsubscribeAll` (respectively
`PUnsubscribeAll`) on a connection with no active Subscribe Info is
well-defined: it leaves the context unchanged (in particular it creates
no Subscribe Info record) and emits exactly one push frame
`["unsubscribe", null, 0]` (respectively `["punsubscribe", null, 0]`);
with no reply requested the same call dereferences the absent record. -/
theorem unsubscribeAll_empty_state (c : ConnectionContext)
    (h : c.conn_state.subscribe_info = none) :
    c.UnsubscribeAll true = some (c, [⟨"unsubscribe", none, 0, false⟩])
    ∧ c.PUnsubscribeAll true = some (c, [⟨"punsubscribe", none, 0, false⟩]) := by
  constructor
  · rw [ConnectionContext.UnsubscribeAll]
    simp [h]
  · rw [ConnectionContext.PUnsubscribeAll]
    simp [h]

/-- Witness for C2 (amended) at the blank context. -/
theorem unsubscribeAll_empty_state_witness :
    blankContext.conn_state.subscribe_info = none ∧
    blankContext.UnsubscribeAll true
      = some (blankContext, [⟨"unsubscribe", none, 0, false⟩]) ∧
    blankContext.PUnsubscribeAll true
      = some (blankContext, [⟨"punsubscribe", none, 0, false⟩]) :=
  ⟨rfl, (unsubscribeAll_empty_state blankContext rfl).1,
    (unsubscribeAll_empty_state blankContext rfl).2⟩

/-- C4 counterexample: `ChangeSubscriptions` with `to_add = true` and an
empty channel list on a connection without Subscribe Info creates a
present-but-empty record and increments the subscription counter, so
"present iff non-empty" does not hold after every subscription operation. -/
theorem subinfo_inv_counterexample :
    (blankContext.ChangeSubscriptions [] false true false).ctx.conn_state.subscribe_info
        = some ⟨[], []⟩
    ∧ subInfoInv (blankContext.ChangeSubscriptions [] false true false).ctx = false
    ∧ (blankContext.ChangeSubscriptions [] false true false).ctx.subscriptions = 1 := by
  exact ⟨rfl, rfl, rfl⟩

/-- C4 amended: provided an add call names at least one channel, every
`ChangeSubscriptions` call preserves "Subscribe Info present iff some set
is non-empty"; a removal that empties the record resets it and decrements
the subscription counter by exactly one, with the reset event strictly
after the batched `Apply`; and `Unsubscribe` (under its `DCHECK`ed
preconditions, i.e. when it does not dereference a null record)
re-establishes the invariant and decrements the counter by exactly one
exactly when it tears the record down. -/
theorem subinfo_inv_amended :
    (∀ (c : ConnectionContext) (channels : List String) (pattern to_add to_reply : Bool),
      subInfoInv c = true → (to_add = true → channels ≠ []) →
      subInfoInv (c.ChangeSubscriptions channels pattern to_add to_reply).ctx = true)
    ∧ (∀ (c : ConnectionContext) (channels : List String) (pattern to_reply : Bool),
      1 ≤ c.subscriptions → c.conn_state.subscribe_info.isSome = true →
      (c.ChangeSubscriptions channels pattern false to_reply).ctx.conn_state.subscribe_info
          = none →
      (c.ChangeSubscriptions channels pattern false to_reply).ctx.subscriptions + 1
          = c.subscriptions
      ∧ ∃ recs, (c.ChangeSubscriptions channels pattern false to_reply).events
          = recs.map SubEvent.record ++ [SubEvent.apply recs, SubEvent.resetInfo])
    ∧ (∀ (c c' : ConnectionContext) (ch : String),
      c.Unsubscribe ch = some c' → 1 ≤ c.subscriptions →
      subInfoInv c' = true
      ∧ (c'.conn_state.subscribe_info = none →
          c'.subscriptions + 1 = c.subscriptions)
      ∧ (c'.conn_state.subscribe_info.isSome = true →
          c'.subscriptions = c.subscriptions)) := by
  refine ⟨?_, ?_, ?_⟩
  · intro c channels pattern to_add to_reply hInv hNE
    cases hinfo : c.conn_state.subscribe_info with
    | none =>
      cases to_add with
      | false =>
        rw [cs_noinfo_remove c channels pattern to_reply hinfo]
        exact hInv
      | true =>
        cases channels with
        | nil => exact absurd rfl (hNE rfl)
        | cons ch rest =>
          rw [cs_none_add_eq c (ch :: rest) pattern to_reply hinfo]
          simp [subInfoInv, subLoop_add_nonempty]
    | some s =>
      rw [cs_some_eq c channels pattern to_add to_reply s hinfo]
      split
      · simp [subInfoInv]
      · rename_i hcond
        cases to_add with
        | true =>
          cases channels with
          | nil => exact absurd rfl (hNE rfl)
          | cons ch rest => simp [subInfoInv, subLoop_add_nonempty]
        | false =>
          simp only [Bool.not_false, Bool.true_and] at hcond
          simp [subInfoInv, Bool.not_eq_true _ ▸ hcond]
  · intro c channels pattern to_reply hsub hsome hnone
    obtain ⟨s, hinfo⟩ := Option.isSome_iff_exists.mp hsome
    rw [cs_some_eq c channels pattern false to_reply s hinfo] at hnone ⊢
    by_cases hC : (!false && (subLoop pattern false s channels).1.IsEmpty) = true
    · rw [if_pos hC] at hnone ⊢
      refine ⟨by simp; omega, ⟨(subLoop pattern false s channels).2.1, by simp⟩⟩
    · rw [if_neg hC] at hnone
      simp at hnone
  · intro c c' ch hEq hsub
    cases hinfo : c.conn_state.subscribe_info with
    | none =>
      rw [ConnectionContext.Unsubscribe, hinfo] at hEq
      exact absurd hEq (by simp)
    | some sinfo =>
      rw [ConnectionContext.Unsubscribe, hinfo] at hEq
      dsimp only at hEq
      by_cases hE : ({ sinfo with
          channels := (setErase sinfo.channels ch).1 } : SubscribeInfo).IsEmpty = true
      · rw [if_pos hE] at hEq
        injection hEq with hEq
        subst hEq
        refine ⟨by simp [subInfoInv], fun _ => by simp; omega, fun hx => by simp at hx⟩
      · rw [if_neg hE] at hEq
        injection hEq with hEq
        subst hEq
        refine ⟨?_, fun hx => by simp at hx, fun _ => rfl⟩
        simp [subInfoInv, Bool.not_eq_true _ ▸ hE]

/-- Witness for C4 (amended): adding `"b"` to, removing `"a"` from, and
`Unsubscribe`-ing `"a"` on a context subscribed to exactly `{"a"}`. -/
theorem subinfo_inv_amended_witness :
    (subInfoInv demoCtx = true
      ∧ subInfoInv (demoCtx.ChangeSubscriptions ["b"] false true true).ctx = true)
    ∧ (1 ≤ demoCtx.subscriptions
      ∧ demoCtx.conn_state.subscribe_info.isSome = true
      ∧ (demoCtx.ChangeSubscriptions ["a"] false false true).ctx.conn_state.subscribe_info
          = none
      ∧ (demoCtx.ChangeSubscriptions ["a"] false false true).ctx.subscriptions + 1
          = demoCtx.subscriptions
      ∧ ∃ recs, (demoCtx.ChangeSubscriptions ["a"] false false true).events
          = recs.map SubEvent.record ++ [SubEvent.apply recs, SubEvent.resetInfo])
    ∧ (demoCtx.Unsubscribe "a" = some blankContext
      ∧ subInfoInv blankContext = true
      ∧ (blankContext.conn_state.subscribe_info = none →
          blankContext.subscriptions + 1 = demoCtx.subscriptions)) := by
  refine ⟨⟨by decide, subinfo_inv_amended.1 demoCtx ["b"] false true true (by decide)
      (fun _ => by decide)⟩, ?_, ?_⟩
  · have h2 := subinfo_inv_amended.2.1 demoCtx ["a"] false true (by decide) (by decide)
      (by decide)
    exact ⟨by decide, by decide, by decide, h2.1, h2.2⟩
  · have h3 := subinfo_inv_amended.2.2 demoCtx blankContext "a" (by decide) (by decide)
    exact ⟨by decide, h3.1, h3.2.1⟩

end Dfly
